import Mathlib

/-!
Verification of the x402-video-paylink payment-gateway protocol engine.

This file gives a shallow embedding of the deferred voucher state machine
(`createDeferredPaymentMiddleware` and its store `storeVoucher`), the
finalization phase of the exact-scheme middleware (`createJWTExactMiddleware`),
the bearer-token scope matcher, and the deferred payment header
encoder/decoder (`encodePayment` / `decodePayment`), together with theorems
about them.

Conventions of the embedding:
- JavaScript numbers used as unix-second timestamps, nonces and chain ids are
  modelled as `Int` (they are compared and incremented only); the BigInt
  arithmetic on `valueAggregate` is modelled as `Int`.
- Address strings are compared after `toLowerCase`, modelled as a
  character-wise ASCII lowercase.
- The in-memory `Map` voucher store is modelled as an association list with
  JavaScript `Map.set` overwrite semantics.
- External suspending calls (EIP-712 signature verification, the facilitator
  `settle`) are parameters of the embedding: a boolean oracle for signature
  verification, and an explicit outcome value for settlement.
-/

namespace X402

/-- `DeferredVoucher` from the deferred scheme package: a signed claim of
cumulative value owed, identified by `id` and advanced by nonce increments. -/
structure DeferredVoucher where
  id : String
  seller : String
  buyer : String
  asset : String
  nonce : Int
  valueAggregate : Int
  timestamp : Int
  expiry : Int
  chainId : Int
deriving DecidableEq, Repr

/-- `VoucherState`: the last accepted voucher plus its signature and the
server-side time (`Date.now()`, milliseconds) of last validation. -/
structure VoucherState where
  voucher : DeferredVoucher
  signature : String
  lastValidated : Int
deriving DecidableEq, Repr

/-- The in-memory voucher store `Map<string, VoucherState>`, as an
association list keyed by voucher id. -/
abbrev VoucherStore := List (String × VoucherState)

/-- `String.prototype.toLowerCase()` on the ASCII address strings the
middleware compares (hex addresses), as a character-wise lowercase. -/
def toLowerCase (s : String) : String :=
  ⟨s.data.map Char.toLower⟩

/-- `Map.get`: the value at the first (unique) occurrence of the key. -/
def storeGet (s : VoucherStore) (k : String) : Option VoucherState :=
  match s with
  | [] => none
  | (k', v) :: rest => if k' = k then some v else storeGet rest k

/-- `Map.set`: overwrite the entry for the key, or append a new one. -/
def storeSet (s : VoucherStore) (k : String) (v : VoucherState) : VoucherStore :=
  match s with
  | [] => [(k, v)]
  | (k', v') :: rest =>
      if k' = k then (k, v) :: rest else (k', v') :: storeSet rest k v

theorem storeGet_storeSet_same (s : VoucherStore) (k : String) (v : VoucherState) :
    storeGet (storeSet s k v) k = some v := by
  induction s with
  | nil => simp [storeGet, storeSet]
  | cons hd tl ih =>
      obtain ⟨k', v'⟩ := hd
      by_cases h : k' = k
      · simp [storeGet, storeSet, h]
      · simp [storeGet, storeSet, h, ih]

theorem storeGet_storeSet_other (s : VoucherStore) (k k' : String) (v : VoucherState)
    (h : k' ≠ k) : storeGet (storeSet s k v) k' = storeGet s k' := by
  induction s with
  | nil => simp [storeGet, storeSet, Ne.symm h]
  | cons hd tl ih =>
      obtain ⟨k0, v0⟩ := hd
      by_cases h0 : k0 = k
      · subst h0
        simp [storeGet, storeSet, Ne.symm h]
      · by_cases h1 : k0 = k'
        · simp [storeGet, storeSet, h0, h1, h]
        · simp [storeGet, storeSet, h0, h1, ih]

/-- Server configuration fields consumed by the deferred middleware
(`config.js` and the middleware options). -/
structure DeferredConfig where
  merchantAddress : String
  assetAddress : String
  network : String
  stepAmount : Int
deriving DecidableEq, Repr

/-- `const chainId = network === "base-sepolia" ? 84532 : 8453`. -/
def chainIdOf (network : String) : Int :=
  if network = "base-sepolia" then 84532 else 8453

/-- The scheme-specific `extra` of a deferred payment requirement: either a
fresh-voucher offer or an aggregation basis (a voucher and its signature). -/
inductive ReqExtra where
  | newVoucher (id : String)
  | aggregation (voucher : DeferredVoucher) (signature : String)
deriving DecidableEq, Repr

/-- The machine-readable reason of each 402 rejection branch of the deferred
middleware, in source order. -/
inductive RejectReason where
  | sellerMismatch
  | assetMismatch
  | chainIdMismatch
  | voucherExpired
  | timestampInvalid
  | invalidSignature
  | reuseWindowExpired
  | nonceMismatch
  | valueAggregateMismatch
  | timestampMustIncrease
  | immutableFieldsChanged
  | firstVoucherNonce
deriving DecidableEq, Repr

/-- Outcome of the deferred voucher validation (steps 5-8 of the middleware):
either a 402 rejection carrying its reason and the `accepts[0].extra` offered
to the client, or acceptance carrying the updated store. The code's only
store mutation is `storeVoucher` after all validations (step 8), so rejection
carries no store: the store is untouched on every rejected request. -/
inductive DeferredResult where
  | reject (status : Nat) (reason : RejectReason) (extra : ReqExtra)
  | accept (newStore : VoucherStore)
deriving DecidableEq, Repr

/-- Step 7-8 of `createDeferredPaymentMiddleware`: the comparison of the
incoming voucher against any stored prior state for the same identifier
(first-use, reuse, or aggregation), and on acceptance the single
`storeVoucher` write, which records the incoming voucher, its signature and
the current server time `nowMs` (`Date.now()`) as `lastValidated`.
The `accepts[0].extra` of the generic rejections echoes the incoming
voucher/signature (built by `getPaymentRequirementsExtra` from the decoded
header); only the expired-reuse rejection replaces it with the *stored*
voucher and signature. -/
def stateCompare (cfg : DeferredConfig) (store : VoucherStore)
    (now nowMs : Int) (voucher : DeferredVoucher) (signature : String) :
    DeferredResult :=
  match storeGet store voucher.id with
  | some prev =>
      if voucher.nonce = prev.voucher.nonce then
        -- reuse: accepted only while now - stored.timestamp ≤ 20 seconds
        if now - prev.voucher.timestamp > 20 then
          .reject 402 .reuseWindowExpired
            (.aggregation prev.voucher prev.signature)
        else
          .accept (storeSet store voucher.id ⟨voucher, signature, nowMs⟩)
      else if voucher.nonce ≠ prev.voucher.nonce + 1 then
        .reject 402 .nonceMismatch (.aggregation voucher signature)
      else if voucher.valueAggregate ≠ prev.voucher.valueAggregate + cfg.stepAmount then
        .reject 402 .valueAggregateMismatch (.aggregation voucher signature)
      else if voucher.timestamp ≤ prev.voucher.timestamp then
        .reject 402 .timestampMustIncrease (.aggregation voucher signature)
      else if voucher.id ≠ prev.voucher.id
          ∨ toLowerCase voucher.seller ≠ toLowerCase prev.voucher.seller
          ∨ toLowerCase voucher.buyer ≠ toLowerCase prev.voucher.buyer
          ∨ toLowerCase voucher.asset ≠ toLowerCase prev.voucher.asset
          ∨ voucher.chainId ≠ prev.voucher.chainId then
        .reject 402 .immutableFieldsChanged (.aggregation voucher signature)
      else
        .accept (storeSet store voucher.id ⟨voucher, signature, nowMs⟩)
  | none =>
      if voucher.nonce ≠ 0 then
        .reject 402 .firstVoucherNonce (.aggregation voucher signature)
      else
        .accept (storeSet store voucher.id ⟨voucher, signature, nowMs⟩)

/-- Steps 5-8 of `createDeferredPaymentMiddleware`, entered after the
`X-PAYMENT` header was decoded into `voucher` and `signature`:
field checks against the configuration, expiry and forward-skew checks,
EIP-712 signature verification (the external verifier is the `verifySig`
oracle), then the state comparison `stateCompare` against the stored prior
voucher.  `now` is `Math.floor(Date.now() / 1000)` and `nowMs` is the
`Date.now()` used by `storeVoucher` for `lastValidated`. -/
def processVoucher (cfg : DeferredConfig) (store : VoucherStore)
    (now nowMs : Int) (voucher : DeferredVoucher) (signature : String)
    (verifySig : DeferredVoucher → String → Bool) : DeferredResult :=
  if toLowerCase voucher.seller ≠ toLowerCase cfg.merchantAddress then
    .reject 402 .sellerMismatch (.aggregation voucher signature)
  else if toLowerCase voucher.asset ≠ toLowerCase cfg.assetAddress then
    .reject 402 .assetMismatch (.aggregation voucher signature)
  else if voucher.chainId ≠ chainIdOf cfg.network then
    .reject 402 .chainIdMismatch (.aggregation voucher signature)
  else if now > voucher.expiry then
    .reject 402 .voucherExpired (.aggregation voucher signature)
  else if voucher.timestamp > now + 60 then
    .reject 402 .timestampInvalid (.aggregation voucher signature)
  else if ¬ verifySig voucher signature then
    .reject 402 .invalidSignature (.aggregation voucher signature)
  else
    stateCompare cfg store now nowMs voucher signature

/-- The store after a request: rejection leaves it unchanged (the code's only
mutation point, `storeVoucher`, is reached only on acceptance). -/
def nextStore (cfg : DeferredConfig) (store : VoucherStore)
    (now nowMs : Int) (voucher : DeferredVoucher) (signature : String)
    (verifySig : DeferredVoucher → String → Bool) : VoucherStore :=
  match processVoucher cfg store now nowMs voucher signature verifySig with
  | .reject _ _ _ => store
  | .accept ns => ns

/-! ### Exact-scheme middleware: finalization after the downstream handler -/

/-- The facilitator's settle response: success flag and error reason. -/
structure SettleResponse where
  success : Bool
  errorReason : String
deriving DecidableEq, Repr

/-- Outcome of `await settle(...)`: a returned response or a thrown error. -/
inductive SettleOutcome where
  | returned (r : SettleResponse)
  | threw (msg : String)
deriving DecidableEq, Repr

/-- The body finally transmitted: the captured downstream output, or a 402
JSON error body carrying the given reason. -/
inductive FinalBody where
  | downstream
  | error402 (reason : String)
deriving DecidableEq, Repr

/-- Observable effects of the exact middleware's finalization phase:
whether the external `settle` was invoked, the final status code, whether an
`X-Receipt-Token` header was issued, whether an `X-PAYMENT-RESPONSE` header
was set, and which body is transmitted when the intercepted `res.end` is
restored and flushed. -/
structure ExactFinal where
  settleCalled : Bool
  status : Nat
  receiptTokenIssued : Bool
  paymentResponseSet : Bool
  body : FinalBody
deriving DecidableEq, Repr

/-- Steps 8-9 of `createJWTExactMiddleware`, run after `next()` returned with
the downstream response captured (not transmitted) by the `res.end`
interceptor.  `downstreamStatus` is `res.statusCode` as observed there:
status ≥ 400 restores `res.end` and flushes the captured downstream response
untouched, without calling `settle`; otherwise `settle` is awaited, the
`X-PAYMENT-RESPONSE` header is set from its response, and on success a JWT
receipt token is issued while on failure (or a thrown settle error) the
response is replaced by a 402 JSON body with the settlement's error reason. -/
def finalizeExact (downstreamStatus : Nat) (settle : SettleOutcome) : ExactFinal :=
  if downstreamStatus ≥ 400 then
    ⟨false, downstreamStatus, false, false, .downstream⟩
  else
    match settle with
    | .returned r =>
        if r.success then
          ⟨true, downstreamStatus, true, true, .downstream⟩
        else
          ⟨true, 402, false, true, .error402 r.errorReason⟩
    | .threw msg =>
        ⟨true, 402, false, false, .error402 msg⟩

/-! ### Bearer-token scope matching (exact middleware, step 1) -/

/-- A token of the regex built by `scopePattern.replace(/\x7b...\x7d/...)`:
each `*` of the glob becomes `.*` (any characters), each literal `.` of the
pattern is the regex any-character, and every other character of the scope
patterns built by this server (letters, digits, `:`, `/`, `-`, `_`) is a
regex literal. -/
inductive RTok where
  | lit (c : Char)
  | anyChar
  | anyStar
deriving DecidableEq, Repr

/-- `scopePattern.replace(/\*/g, ".*")` viewed as a token list. -/
def globToRegex (pattern : String) : List RTok :=
  pattern.toList.map fun c =>
    if c = '*' then RTok.anyStar else if c = '.' then RTok.anyChar else RTok.lit c

/-- Anchored regex matching (`new RegExp("^" + p + "$").test(url)`) for the
token alphabet above, by recursion on the token list: `.*` matches an
arbitrary prefix, so `anyStar :: ts` matches `cs` iff `ts` matches some
suffix of `cs`. -/
def rmatch : List RTok → List Char → Bool
  | [], cs => cs.isEmpty
  | RTok.lit c :: ts, cs =>
      match cs with
      | [] => false
      | d :: ds => c == d && rmatch ts ds
  | RTok.anyChar :: ts, cs =>
      match cs with
      | [] => false
      | _ :: ds => rmatch ts ds
  | RTok.anyStar :: ts, cs => cs.tails.any fun suffix => rmatch ts suffix

/-- One scope pattern tested against the request's fully-qualified URL. -/
def scopeMatches (scopePattern currentUrl : String) : Bool :=
  rmatch (globToRegex scopePattern) currentUrl.toList

/-- `receipt.scope.some(scopePattern => ...)`. -/
def hasMatchingScope (scope : List String) (currentUrl : String) : Bool :=
  scope.any fun p => scopeMatches p currentUrl

/-- The bearer-token claims issued by the exact middleware. -/
structure PaymentReceipt where
  iss : String
  sub : String
  req : String
  iat : Int
  scope : List String
deriving DecidableEq, Repr

/-- Step 1 decision of the exact middleware: `allow` runs `next()` with no
further payment check; `fallthrough` continues to the payment flow. -/
inductive TokenGate where
  | allow
  | fallthrough
deriving DecidableEq, Repr

/-- Step 1 of `createJWTExactMiddleware`: `jwt.verify` is modelled by the
caller passing `some receipt` only when the token verifies; the request's
fully-qualified URL is `config.baseUrl + req.path`.  A verified token whose
scope matches the URL allows the request unconditionally; otherwise the
middleware falls through to the payment flow. -/
def exactTokenGate (verified : Option PaymentReceipt) (currentUrl : String) :
    TokenGate :=
  match verified with
  | some receipt =>
      if hasMatchingScope receipt.scope currentUrl then .allow else .fallthrough
  | none => .fallthrough

/-! ### Deferred payment header codec

`encodePayment` is `JSON.stringify` of the header object and `decodePayment`
is `JSON.parse` followed by shape validation.  Since `JSON.parse` is a left
inverse of `JSON.stringify` on these objects (strings and numbers only), the
codec is modelled at the parsed-object level: `DeferredPaymentHeader` is the
JSON object, and `decodePayment` performs the source's validation on it.
JavaScript truthiness: `!parsed.voucher` is false for every object, and
`!parsed.signature` is true exactly for the empty string. -/

/-- `DEFERRED_SCHEME = "deferred"`. -/
def DEFERRED_SCHEME : String := "deferred"

/-- The JSON object written by `encodePayment`. -/
structure DeferredPaymentHeader where
  scheme : String
  voucher : DeferredVoucher
  signature : String
deriving DecidableEq, Repr

/-- The `payload` of a decoded payment. -/
structure DeferredPayload where
  voucher : DeferredVoucher
  signature : String
deriving DecidableEq, Repr

/-- `encodePayment(voucher, signature)`. -/
def encodePayment (voucher : DeferredVoucher) (signature : String) :
    DeferredPaymentHeader :=
  { scheme := DEFERRED_SCHEME, voucher := voucher, signature := signature }

/-- `decodePayment(paymentHeader)` after `JSON.parse`: throws unless the
scheme is `"deferred"`, the voucher is truthy (an object always is) and the
signature is truthy (nonempty); otherwise returns the payload. -/
def decodePayment (parsed : DeferredPaymentHeader) :
    Except String DeferredPayload :=
  if parsed.scheme ≠ DEFERRED_SCHEME ∨ parsed.signature = "" then
    .error "Invalid deferred payment header"
  else
    .ok { voucher := parsed.voucher, signature := parsed.signature }

/-! ### Sample concrete values (used by witnesses and counterexamples) -/

/-- A concrete server configuration (mixed-case addresses exercise the
case-insensitive comparisons). -/
def sampleConfig : DeferredConfig :=
  { merchantAddress := "0xAbCd", assetAddress := "0xA55e",
    network := "base-sepolia", stepAmount := 10000 }

/-- A concrete first voucher for identifier `v1`. -/
def sampleVoucher : DeferredVoucher :=
  { id := "v1", seller := "0xABCD", buyer := "0xBEEF", asset := "0xa55E",
    nonce := 0, valueAggregate := 10000, timestamp := 1000, expiry := 100000,
    chainId := 84532 }

/-- The store after `sampleVoucher` was accepted at server time 1000000 ms. -/
def sampleStore : VoucherStore :=
  [("v1", ⟨sampleVoucher, "0xsig", 1000000⟩)]

/-- The signature oracle that accepts everything (all sample vouchers are
taken as properly signed by their buyer). -/
def acceptAllSigs : DeferredVoucher → String → Bool := fun _ _ => true

/-! ### Bridge: requests passing the field, expiry, skew and signature checks
reach the state comparison -/

theorem processVoucher_eq_stateCompare (cfg : DeferredConfig)
    (store : VoucherStore) (now nowMs : Int) (voucher : DeferredVoucher)
    (signature : String) (verifySig : DeferredVoucher → String → Bool)
    (hseller : toLowerCase voucher.seller = toLowerCase cfg.merchantAddress)
    (hasset : toLowerCase voucher.asset = toLowerCase cfg.assetAddress)
    (hchain : voucher.chainId = chainIdOf cfg.network)
    (hexp : now ≤ voucher.expiry)
    (hskew : voucher.timestamp ≤ now + 60)
    (hsig : verifySig voucher signature = true) :
    processVoucher cfg store now nowMs voucher signature verifySig
      = stateCompare cfg store now nowMs voucher signature := by
  unfold processVoucher
  rw [if_neg (by simp [hseller]), if_neg (by simp [hasset]),
      if_neg (by simp [hchain]), if_neg (not_lt.mpr hexp),
      if_neg (not_lt.mpr hskew), if_neg (by simp [hsig])]

/-! ### Claim theorems -/

/-- C1: in the deferred voucher state machine, an incoming voucher whose
nonce equals the stored voucher's nonce (reuse) is accepted iff
`now - stored.timestamp ≤ 20` seconds: at exactly 20 seconds the reuse is
accepted and past the boundary it is deterministically rejected (with the
aggregation-required error). -/
theorem deferred_reuse_window_boundary
    (cfg : DeferredConfig) (store : VoucherStore) (now nowMs : Int)
    (voucher : DeferredVoucher) (signature : String)
    (verifySig : DeferredVoucher → String → Bool) (prev : VoucherState)
    (hstore : storeGet store voucher.id = some prev)
    (hnonce : voucher.nonce = prev.voucher.nonce)
    (hseller : toLowerCase voucher.seller = toLowerCase cfg.merchantAddress)
    (hasset : toLowerCase voucher.asset = toLowerCase cfg.assetAddress)
    (hchain : voucher.chainId = chainIdOf cfg.network)
    (hexp : now ≤ voucher.expiry)
    (hskew : voucher.timestamp ≤ now + 60)
    (hsig : verifySig voucher signature = true) :
    ((∃ ns, processVoucher cfg store now nowMs voucher signature verifySig
        = .accept ns) ↔ now - prev.voucher.timestamp ≤ 20)
    ∧ (now - prev.voucher.timestamp ≤ 20 →
        processVoucher cfg store now nowMs voucher signature verifySig
          = .accept (storeSet store voucher.id ⟨voucher, signature, nowMs⟩))
    ∧ (20 < now - prev.voucher.timestamp →
        processVoucher cfg store now nowMs voucher signature verifySig
          = .reject 402 .reuseWindowExpired
              (.aggregation prev.voucher prev.signature)) := by
  rw [processVoucher_eq_stateCompare cfg store now nowMs voucher signature
        verifySig hseller hasset hchain hexp hskew hsig]
  unfold stateCompare
  simp only [hstore]
  by_cases hle : now - prev.voucher.timestamp ≤ 20
  · rw [if_pos hnonce, if_neg (not_lt.mpr hle)]
    exact ⟨⟨fun _ => hle, fun _ => ⟨_, rfl⟩⟩, fun _ => rfl,
      fun hgt => absurd hgt (not_lt.mpr hle)⟩
  · rw [if_pos hnonce, if_pos (not_le.mp hle)]
    refine ⟨⟨fun hex => ?_, fun h => absurd h hle⟩,
      fun h => absurd h hle, fun _ => rfl⟩
    obtain ⟨ns, h⟩ := hex
    exact absurd h (by simp)

/-- C1 witness: with the sample voucher stored at timestamp 1000, a reuse at
`now = 1020` (exactly 20 seconds later) is accepted, and a reuse at
`now = 1021` (21 seconds later) is rejected with the aggregation-required
error echoing the stored voucher. -/
theorem deferred_reuse_window_boundary_witness :
    processVoucher sampleConfig sampleStore 1020 1020000
        { sampleVoucher with timestamp := 1020 } "0xsig" acceptAllSigs
      = .accept (storeSet sampleStore "v1"
          ⟨{ sampleVoucher with timestamp := 1020 }, "0xsig", 1020000⟩)
    ∧ processVoucher sampleConfig sampleStore 1021 1021000
        { sampleVoucher with timestamp := 1021 } "0xsig" acceptAllSigs
      = .reject 402 .reuseWindowExpired (.aggregation sampleVoucher "0xsig") :=
  ⟨(deferred_reuse_window_boundary sampleConfig sampleStore 1020 1020000
      { sampleVoucher with timestamp := 1020 } "0xsig" acceptAllSigs
      ⟨sampleVoucher, "0xsig", 1000000⟩ (by decide) (by decide) (by decide)
      (by decide) (by decide) (by decide) (by decide) (by decide)).2.1 (by decide),
   (deferred_reuse_window_boundary sampleConfig sampleStore 1021 1021000
      { sampleVoucher with timestamp := 1021 } "0xsig" acceptAllSigs
      ⟨sampleVoucher, "0xsig", 1000000⟩ (by decide) (by decide) (by decide)
      (by decide) (by decide) (by decide) (by decide) (by decide)).2.2 (by decide)⟩

/-- The aggregation-step conditions the middleware checks against the stored
voucher: exact step increment of `valueAggregate`, strictly increasing
timestamp, and unchanged immutable fields (addresses case-insensitively). -/
def aggregationOk (cfg : DeferredConfig) (prev : VoucherState)
    (voucher : DeferredVoucher) : Prop :=
  voucher.valueAggregate = prev.voucher.valueAggregate + cfg.stepAmount
  ∧ prev.voucher.timestamp < voucher.timestamp
  ∧ voucher.id = prev.voucher.id
  ∧ toLowerCase voucher.seller = toLowerCase prev.voucher.seller
  ∧ toLowerCase voucher.buyer = toLowerCase prev.voucher.buyer
  ∧ toLowerCase voucher.asset = toLowerCase prev.voucher.asset
  ∧ voucher.chainId = prev.voucher.chainId

instance (cfg : DeferredConfig) (prev : VoucherState) (voucher : DeferredVoucher) :
    Decidable (aggregationOk cfg prev voucher) := by
  unfold aggregationOk
  infer_instance

/-- C2: an incoming voucher with nonce = stored nonce + 1 (aggregation) is
accepted iff `valueAggregate` equals the stored value plus `stepAmount`
exactly, the timestamp strictly increased, and the immutable fields
(id, seller, buyer, asset, chainId — addresses case-insensitively) are
unchanged; each violation is a 402 with its specific mismatch reason, even
though the signature verified. -/
theorem deferred_aggregation_validation
    (cfg : DeferredConfig) (store : VoucherStore) (now nowMs : Int)
    (voucher : DeferredVoucher) (signature : String)
    (verifySig : DeferredVoucher → String → Bool) (prev : VoucherState)
    (hstore : storeGet store voucher.id = some prev)
    (hnonce : voucher.nonce = prev.voucher.nonce + 1)
    (hseller : toLowerCase voucher.seller = toLowerCase cfg.merchantAddress)
    (hasset : toLowerCase voucher.asset = toLowerCase cfg.assetAddress)
    (hchain : voucher.chainId = chainIdOf cfg.network)
    (hexp : now ≤ voucher.expiry)
    (hskew : voucher.timestamp ≤ now + 60)
    (hsig : verifySig voucher signature = true) :
    ((∃ ns, processVoucher cfg store now nowMs voucher signature verifySig
        = .accept ns) ↔ aggregationOk cfg prev voucher)
    ∧ (aggregationOk cfg prev voucher →
        processVoucher cfg store now nowMs voucher signature verifySig
          = .accept (storeSet store voucher.id ⟨voucher, signature, nowMs⟩))
    ∧ (voucher.valueAggregate ≠ prev.voucher.valueAggregate + cfg.stepAmount →
        processVoucher cfg store now nowMs voucher signature verifySig
          = .reject 402 .valueAggregateMismatch (.aggregation voucher signature))
    ∧ (voucher.valueAggregate = prev.voucher.valueAggregate + cfg.stepAmount →
        voucher.timestamp ≤ prev.voucher.timestamp →
        processVoucher cfg store now nowMs voucher signature verifySig
          = .reject 402 .timestampMustIncrease (.aggregation voucher signature))
    ∧ (voucher.valueAggregate = prev.voucher.valueAggregate + cfg.stepAmount →
        prev.voucher.timestamp < voucher.timestamp →
        (voucher.id ≠ prev.voucher.id
          ∨ toLowerCase voucher.seller ≠ toLowerCase prev.voucher.seller
          ∨ toLowerCase voucher.buyer ≠ toLowerCase prev.voucher.buyer
          ∨ toLowerCase voucher.asset ≠ toLowerCase prev.voucher.asset
          ∨ voucher.chainId ≠ prev.voucher.chainId) →
        processVoucher cfg store now nowMs voucher signature verifySig
          = .reject 402 .immutableFieldsChanged (.aggregation voucher signature)) := by
  rw [processVoucher_eq_stateCompare cfg store now nowMs voucher signature
        verifySig hseller hasset hchain hexp hskew hsig]
  unfold stateCompare
  simp only [hstore]
  have hne : ¬ (voucher.nonce = prev.voucher.nonce) := by omega
  rw [if_neg hne, if_neg (by simp [hnonce])]
  by_cases hval : voucher.valueAggregate = prev.voucher.valueAggregate + cfg.stepAmount
  · rw [if_neg (by simp [hval])]
    by_cases hts : voucher.timestamp ≤ prev.voucher.timestamp
    · rw [if_pos hts]
      refine ⟨⟨fun hex => ?_, fun hok => absurd hts (not_le.mpr hok.2.1)⟩,
        fun hok => absurd hts (not_le.mpr hok.2.1),
        fun hne' => absurd hval hne', fun _ _ => rfl,
        fun _ hlt _ => absurd hts (not_le.mpr hlt)⟩
      obtain ⟨ns, h⟩ := hex
      exact absurd h (by simp)
    · rw [if_neg hts]
      by_cases himm : voucher.id ≠ prev.voucher.id
          ∨ toLowerCase voucher.seller ≠ toLowerCase prev.voucher.seller
          ∨ toLowerCase voucher.buyer ≠ toLowerCase prev.voucher.buyer
          ∨ toLowerCase voucher.asset ≠ toLowerCase prev.voucher.asset
          ∨ voucher.chainId ≠ prev.voucher.chainId
      · rw [if_pos himm]
        refine ⟨⟨fun hex => ?_, fun hok => ?_⟩, fun hok => ?_,
          fun hne' => absurd hval hne', fun _ h => absurd h hts,
          fun _ _ _ => rfl⟩
        · obtain ⟨ns, h⟩ := hex
          exact absurd h (by simp)
        · obtain ⟨_, _, hid, hs, hb, ha, hc⟩ := hok
          rcases himm with h | h | h | h | h
          · exact absurd hid h
          · exact absurd hs h
          · exact absurd hb h
          · exact absurd ha h
          · exact absurd hc h
        · obtain ⟨_, _, hid, hs, hb, ha, hc⟩ := hok
          rcases himm with h | h | h | h | h
          · exact absurd hid h
          · exact absurd hs h
          · exact absurd hb h
          · exact absurd ha h
          · exact absurd hc h
      · rw [if_neg himm]
        push_neg at himm
        obtain ⟨hid, hs, hb, ha, hc⟩ := himm
        refine ⟨⟨fun _ => ⟨hval, not_le.mp hts, hid, hs, hb, ha, hc⟩,
          fun _ => ⟨_, rfl⟩⟩, fun _ => rfl, fun hne' => absurd hval hne',
          fun _ h => absurd h hts, fun _ _ hd => ?_⟩
        rcases hd with h | h | h | h | h
        · exact absurd hid h
        · exact absurd hs h
        · exact absurd hb h
        · exact absurd ha h
        · exact absurd hc h
  · rw [if_pos (by simp [hval])]
    refine ⟨⟨fun hex => ?_, fun hok => absurd hok.1 hval⟩,
      fun hok => absurd hok.1 hval, fun _ => rfl,
      fun h _ => absurd h hval, fun h _ _ => absurd h hval⟩
    obtain ⟨ns, h⟩ := hex
    exact absurd h (by simp)

/-- The valid aggregation step over `sampleVoucher`: nonce 1, value 20000,
timestamp 1030. -/
def aggVoucher : DeferredVoucher :=
  { sampleVoucher with nonce := 1, valueAggregate := 20000, timestamp := 1030 }

/-- C2 witness: a valid aggregation step (nonce 1, value 20000, timestamp
1030) over the stored sample voucher is accepted and stored. -/
theorem deferred_aggregation_validation_witness :
    processVoucher sampleConfig sampleStore 1030 1030000 aggVoucher "0xsig2"
        acceptAllSigs
      = .accept (storeSet sampleStore "v1" ⟨aggVoucher, "0xsig2", 1030000⟩) :=
  (deferred_aggregation_validation sampleConfig sampleStore 1030 1030000
      aggVoucher "0xsig2" acceptAllSigs
      ⟨sampleVoucher, "0xsig", 1000000⟩ (by decide) (by decide) (by decide)
      (by decide) (by decide) (by decide) (by decide)
      (by decide)).2.1 (by decide)

/-- C3: an incoming voucher whose identifier has no stored prior state is
accepted only with nonce 0; any other nonce is rejected with the 402
first-voucher error. -/
theorem deferred_first_voucher_requires_nonce_zero
    (cfg : DeferredConfig) (store : VoucherStore) (now nowMs : Int)
    (voucher : DeferredVoucher) (signature : String)
    (verifySig : DeferredVoucher → String → Bool)
    (hstore : storeGet store voucher.id = none)
    (hseller : toLowerCase voucher.seller = toLowerCase cfg.merchantAddress)
    (hasset : toLowerCase voucher.asset = toLowerCase cfg.assetAddress)
    (hchain : voucher.chainId = chainIdOf cfg.network)
    (hexp : now ≤ voucher.expiry)
    (hskew : voucher.timestamp ≤ now + 60)
    (hsig : verifySig voucher signature = true) :
    ((∃ ns, processVoucher cfg store now nowMs voucher signature verifySig
        = .accept ns) ↔ voucher.nonce = 0)
    ∧ (voucher.nonce = 0 →
        processVoucher cfg store now nowMs voucher signature verifySig
          = .accept (storeSet store voucher.id ⟨voucher, signature, nowMs⟩))
    ∧ (voucher.nonce ≠ 0 →
        processVoucher cfg store now nowMs voucher signature verifySig
          = .reject 402 .firstVoucherNonce (.aggregation voucher signature)) := by
  rw [processVoucher_eq_stateCompare cfg store now nowMs voucher signature
        verifySig hseller hasset hchain hexp hskew hsig]
  unfold stateCompare
  simp only [hstore]
  by_cases h0 : voucher.nonce = 0
  · rw [if_neg (by simp [h0])]
    exact ⟨⟨fun _ => h0, fun _ => ⟨_, rfl⟩⟩, fun _ => rfl,
      fun h => absurd h0 h⟩
  · rw [if_pos h0]
    refine ⟨⟨fun hex => ?_, fun h => absurd h h0⟩, fun h => absurd h h0,
      fun _ => rfl⟩
    obtain ⟨ns, h⟩ := hex
    exact absurd h (by simp)

/-- C3 witness: with an empty store, the sample voucher (nonce 0) is
accepted, and the same voucher with nonce 3 is rejected with the
first-voucher error. -/
theorem deferred_first_voucher_requires_nonce_zero_witness :
    processVoucher sampleConfig [] 1000 1000000 sampleVoucher "0xsig"
        acceptAllSigs
      = .accept (storeSet [] "v1" ⟨sampleVoucher, "0xsig", 1000000⟩)
    ∧ processVoucher sampleConfig [] 1000 1000000
        { sampleVoucher with nonce := 3 } "0xsig" acceptAllSigs
      = .reject 402 .firstVoucherNonce
          (.aggregation { sampleVoucher with nonce := 3 } "0xsig") :=
  ⟨(deferred_first_voucher_requires_nonce_zero sampleConfig [] 1000 1000000
      sampleVoucher "0xsig" acceptAllSigs (by decide) (by decide) (by decide)
      (by decide) (by decide) (by decide) (by decide)).2.1 (by decide),
   (deferred_first_voucher_requires_nonce_zero sampleConfig [] 1000 1000000
      { sampleVoucher with nonce := 3 } "0xsig" acceptAllSigs (by decide)
      (by decide) (by decide) (by decide) (by decide) (by decide)
      (by decide)).2.2 (by decide)⟩

/-- C7: a same-nonce reuse rejected because the 20-second window elapsed
re-offers the *stored* voucher and its stored signature as the aggregation
basis in `accepts[0].extra`. -/
theorem deferred_reuse_expired_reoffers_stored
    (cfg : DeferredConfig) (store : VoucherStore) (now nowMs : Int)
    (voucher : DeferredVoucher) (signature : String)
    (verifySig : DeferredVoucher → String → Bool) (prev : VoucherState)
    (hstore : storeGet store voucher.id = some prev)
    (hnonce : voucher.nonce = prev.voucher.nonce)
    (hdiff : 20 < now - prev.voucher.timestamp)
    (hseller : toLowerCase voucher.seller = toLowerCase cfg.merchantAddress)
    (hasset : toLowerCase voucher.asset = toLowerCase cfg.assetAddress)
    (hchain : voucher.chainId = chainIdOf cfg.network)
    (hexp : now ≤ voucher.expiry)
    (hskew : voucher.timestamp ≤ now + 60)
    (hsig : verifySig voucher signature = true) :
    processVoucher cfg store now nowMs voucher signature verifySig
      = .reject 402 .reuseWindowExpired
          (.aggregation prev.voucher prev.signature) := by
  rw [processVoucher_eq_stateCompare cfg store now nowMs voucher signature
        verifySig hseller hasset hchain hexp hskew hsig]
  unfold stateCompare
  simp only [hstore]
  rw [if_pos hnonce, if_pos hdiff]

/-- C7 witness: the sample reuse 25 seconds after the stored timestamp is
rejected and the 402 offers the stored voucher/signature for aggregation. -/
theorem deferred_reuse_expired_reoffers_stored_witness :
    processVoucher sampleConfig sampleStore 1025 1025000
        { sampleVoucher with timestamp := 1025 } "0xsig3" acceptAllSigs
      = .reject 402 .reuseWindowExpired (.aggregation sampleVoucher "0xsig") :=
  deferred_reuse_expired_reoffers_stored sampleConfig sampleStore 1025 1025000
    { sampleVoucher with timestamp := 1025 } "0xsig3" acceptAllSigs
    ⟨sampleVoucher, "0xsig", 1000000⟩ (by decide) (by decide) (by decide)
    (by decide) (by decide) (by decide) (by decide) (by decide) (by decide)

/-- The full state-comparison rule under which the middleware accepts a
voucher against the stored prior state: first-use at nonce 0, reuse within
the 20-second window, or a valid aggregation step. -/
def stateRuleOk (cfg : DeferredConfig) (store : VoucherStore) (now : Int)
    (voucher : DeferredVoucher) : Prop :=
  match storeGet store voucher.id with
  | none => voucher.nonce = 0
  | some prev =>
      (voucher.nonce = prev.voucher.nonce ∧ now - prev.voucher.timestamp ≤ 20)
      ∨ (voucher.nonce = prev.voucher.nonce + 1 ∧ aggregationOk cfg prev voucher)

/-- Every rejection of the deferred middleware carries status 402. -/
theorem processVoucher_reject_status (cfg : DeferredConfig)
    (store : VoucherStore) (now nowMs : Int) (voucher : DeferredVoucher)
    (signature : String) (verifySig : DeferredVoucher → String → Bool)
    (st : Nat) (r : RejectReason) (ex : ReqExtra)
    (h : processVoucher cfg store now nowMs voucher signature verifySig
      = .reject st r ex) : st = 402 := by
  unfold processVoucher at h
  split_ifs at h with a1 a2 a3 a4 a5 a6
  all_goals try (injection h with e1 e2 e3; omega)
  unfold stateCompare at h
  split at h <;> split_ifs at h <;>
    first
      | (injection h with e1 e2 e3; omega)
      | injection h

/-- Acceptance by the deferred middleware implies that every validation
succeeded, and the resulting store is the single `storeVoucher` write. -/
theorem processVoucher_accept_inv (cfg : DeferredConfig)
    (store : VoucherStore) (now nowMs : Int) (voucher : DeferredVoucher)
    (signature : String) (verifySig : DeferredVoucher → String → Bool)
    (ns : VoucherStore)
    (h : processVoucher cfg store now nowMs voucher signature verifySig
      = .accept ns) :
    (toLowerCase voucher.seller = toLowerCase cfg.merchantAddress
      ∧ toLowerCase voucher.asset = toLowerCase cfg.assetAddress
      ∧ voucher.chainId = chainIdOf cfg.network
      ∧ now ≤ voucher.expiry
      ∧ voucher.timestamp ≤ now + 60
      ∧ verifySig voucher signature = true
      ∧ stateRuleOk cfg store now voucher)
    ∧ ns = storeSet store voucher.id ⟨voucher, signature, nowMs⟩ := by
  unfold processVoucher at h
  split_ifs at h with h1 h2 h3 h4 h5 h6 <;> try simp at h
  have key : stateRuleOk cfg store now voucher
      ∧ ns = storeSet store voucher.id ⟨voucher, signature, nowMs⟩ := by
    unfold stateCompare at h
    unfold stateRuleOk aggregationOk
    split at h
    next prev heq =>
      simp only [heq]
      split_ifs at h with hn hd hn1 hv ht hi <;> try simp at h
      · exact ⟨Or.inl ⟨hn, not_lt.mp hd⟩, h.symm⟩
      · push_neg at hi
        obtain ⟨hid, hs, hb, ha, hc⟩ := hi
        exact ⟨Or.inr ⟨not_not.mp hn1, not_not.mp hv, not_le.mp ht,
          hid, hs, hb, ha, hc⟩, h.symm⟩
    next heq =>
      simp only [heq]
      split_ifs at h with h0 <;> try simp at h
      exact ⟨not_not.mp h0, h.symm⟩
  exact ⟨⟨not_not.mp h1, not_not.mp h2, not_not.mp h3, not_lt.mp h4,
    not_lt.mp h5, h6, key.1⟩, key.2⟩

/-- C6: the deferred middleware commits no partial state: every rejection is
a 402 that leaves the voucher store unchanged, and every acceptance happens
only after all validations succeeded and writes exactly the one entry for the
voucher's identifier (the `storeVoucher` call), leaving all other keys
untouched. -/
theorem deferred_store_write_discipline (cfg : DeferredConfig)
    (store : VoucherStore) (now nowMs : Int) (voucher : DeferredVoucher)
    (signature : String) (verifySig : DeferredVoucher → String → Bool) :
    (∀ st r ex, processVoucher cfg store now nowMs voucher signature verifySig
        = .reject st r ex →
      st = 402
        ∧ nextStore cfg store now nowMs voucher signature verifySig = store)
    ∧ (∀ ns, processVoucher cfg store now nowMs voucher signature verifySig
        = .accept ns →
      (toLowerCase voucher.seller = toLowerCase cfg.merchantAddress
        ∧ toLowerCase voucher.asset = toLowerCase cfg.assetAddress
        ∧ voucher.chainId = chainIdOf cfg.network
        ∧ now ≤ voucher.expiry
        ∧ voucher.timestamp ≤ now + 60
        ∧ verifySig voucher signature = true
        ∧ stateRuleOk cfg store now voucher)
      ∧ ns = storeSet store voucher.id ⟨voucher, signature, nowMs⟩
      ∧ storeGet ns voucher.id = some ⟨voucher, signature, nowMs⟩
      ∧ ∀ k, k ≠ voucher.id → storeGet ns k = storeGet store k) := by
  constructor
  · intro st r ex h
    refine ⟨processVoucher_reject_status cfg store now nowMs voucher signature
      verifySig st r ex h, ?_⟩
    simp [nextStore, h]
  · intro ns h
    obtain ⟨hvalid, hns⟩ := processVoucher_accept_inv cfg store now nowMs
      voucher signature verifySig ns h
    subst hns
    exact ⟨hvalid, rfl, storeGet_storeSet_same _ _ _,
      fun k hk => storeGet_storeSet_other _ _ _ _ hk⟩

/-- C6 witness: a reuse rejected 25 seconds past the stored timestamp leaves
the sample store unchanged. -/
theorem deferred_store_write_discipline_witness :
    nextStore sampleConfig sampleStore 1025 1025000
        { sampleVoucher with timestamp := 1025 } "0xsig3" acceptAllSigs
      = sampleStore :=
  ((deferred_store_write_discipline sampleConfig sampleStore 1025 1025000
      { sampleVoucher with timestamp := 1025 } "0xsig3" acceptAllSigs).1
    402 .reuseWindowExpired (.aggregation sampleVoucher "0xsig") (by decide)).2

/-- A run of same-nonce reuse requests, 20 seconds apart: at each step the
buyer submits the voucher re-timestamped to the current time `t`, the
middleware processes it at `now = t` (with `Date.now() = 1000 t`), and the
run stops with `none` if any step is rejected. -/
def reuseRun (cfg : DeferredConfig)
    (verifySig : DeferredVoucher → String → Bool) (v : DeferredVoucher)
    (signature : String) : Nat → Int → VoucherStore → Option VoucherStore
  | 0, _, s => some s
  | n + 1, t, s =>
      match processVoucher cfg s t (t * 1000) { v with timestamp := t }
          signature verifySig with
      | .accept ns => reuseRun cfg verifySig v signature n (t + 20) ns
      | .reject _ _ _ => none

/-- Arbitrarily many same-nonce reuse requests, each freshly timestamped and
within 20 seconds of the previously stored timestamp, are all accepted, and
the stored `valueAggregate` and nonce never change. -/
theorem reuseRun_accepts (cfg : DeferredConfig)
    (verifySig : DeferredVoucher → String → Bool) (v : DeferredVoucher)
    (signature : String)
    (hseller : toLowerCase v.seller = toLowerCase cfg.merchantAddress)
    (hasset : toLowerCase v.asset = toLowerCase cfg.assetAddress)
    (hchain : v.chainId = chainIdOf cfg.network)
    (hsig : ∀ t, verifySig { v with timestamp := t } signature = true) :
    ∀ (n : Nat) (t : Int) (s : VoucherStore) (st0 : VoucherState),
      storeGet s v.id = some st0 →
      st0.voucher = { v with timestamp := st0.voucher.timestamp } →
      t - st0.voucher.timestamp ≤ 20 →
      t + 20 * (n : Int) ≤ v.expiry →
      ∃ s', reuseRun cfg verifySig v signature n t s = some s'
        ∧ ∃ st, storeGet s' v.id = some st
            ∧ st.voucher.valueAggregate = v.valueAggregate
            ∧ st.voucher.nonce = v.nonce := by
  intro n
  induction n with
  | zero =>
      intro t s st0 hget hshape _ _
      refine ⟨s, rfl, st0, hget, ?_, ?_⟩ <;> rw [hshape]
  | succ n ih =>
      intro t s st0 hget hshape hdiff hexp
      have hsn : ({ v with timestamp := t } : DeferredVoucher).nonce
          = st0.voucher.nonce := by rw [hshape]
      have hstep : processVoucher cfg s t (t * 1000)
          { v with timestamp := t } signature verifySig
          = .accept (storeSet s v.id
              ⟨{ v with timestamp := t }, signature, t * 1000⟩) := by
        rw [processVoucher_eq_stateCompare cfg s t (t * 1000)
              { v with timestamp := t } signature verifySig hseller hasset
              hchain (by dsimp only; omega) (by dsimp only; omega) (hsig t)]
        unfold stateCompare
        dsimp only
        simp only [hget]
        rw [if_pos hsn, if_neg (by omega)]
      simp only [reuseRun, hstep]
      exact ih (t + 20)
        (storeSet s v.id ⟨{ v with timestamp := t }, signature, t * 1000⟩)
        ⟨{ v with timestamp := t }, signature, t * 1000⟩
        (storeGet_storeSet_same s v.id _) rfl (by dsimp only; omega)
        (by push_cast at hexp ⊢; omega)

/-- C9: an accepted same-nonce reuse overwrites the stored state with the
incoming voucher — including its timestamp — and a fresh `lastValidated`
(server time `nowMs`), so the next reuse window is measured from the most
recently accepted voucher's timestamp; consequently a buyer re-submitting
freshly timestamped same-nonce vouchers within the window is accepted
indefinitely (any number of steps) without `valueAggregate` or the nonce
ever changing. -/
theorem deferred_reuse_overwrite_and_replay (cfg : DeferredConfig)
    (store : VoucherStore) (now nowMs : Int) (voucher : DeferredVoucher)
    (signature : String) (verifySig : DeferredVoucher → String → Bool)
    (prev : VoucherState)
    (hstore : storeGet store voucher.id = some prev)
    (hnonce : voucher.nonce = prev.voucher.nonce)
    (hdiff : now - prev.voucher.timestamp ≤ 20)
    (hseller : toLowerCase voucher.seller = toLowerCase cfg.merchantAddress)
    (hasset : toLowerCase voucher.asset = toLowerCase cfg.assetAddress)
    (hchain : voucher.chainId = chainIdOf cfg.network)
    (hexp : now ≤ voucher.expiry)
    (hskew : voucher.timestamp ≤ now + 60)
    (hsig : ∀ t, verifySig { voucher with timestamp := t } signature = true) :
    (processVoucher cfg store now nowMs voucher signature verifySig
        = .accept (storeSet store voucher.id ⟨voucher, signature, nowMs⟩)
      ∧ storeGet (storeSet store voucher.id ⟨voucher, signature, nowMs⟩)
          voucher.id = some ⟨voucher, signature, nowMs⟩)
    ∧ (∀ (n : Nat) (t : Int) (s : VoucherStore) (st0 : VoucherState),
        storeGet s voucher.id = some st0 →
        st0.voucher = { voucher with timestamp := st0.voucher.timestamp } →
        t - st0.voucher.timestamp ≤ 20 →
        t + 20 * (n : Int) ≤ voucher.expiry →
        ∃ s', reuseRun cfg verifySig voucher signature n t s = some s'
          ∧ ∃ st, storeGet s' voucher.id = some st
              ∧ st.voucher.valueAggregate = voucher.valueAggregate
              ∧ st.voucher.nonce = voucher.nonce) := by
  constructor
  · constructor
    · rw [processVoucher_eq_stateCompare cfg store now nowMs voucher signature
            verifySig hseller hasset hchain hexp hskew (hsig voucher.timestamp)]
      unfold stateCompare
      simp only [hstore]
      rw [if_pos hnonce, if_neg (by omega)]
    · exact storeGet_storeSet_same store voucher.id _
  · exact reuseRun_accepts cfg verifySig voucher signature hseller hasset
      hchain hsig

/-- C9 witness: a reuse of the sample voucher 10 seconds after the stored
timestamp is accepted and overwrites the stored state, and a run of 2
further same-nonce reuses starting at `t = 1020` is fully accepted with the
stored `valueAggregate` still 10000 and the nonce still 0. -/
theorem deferred_reuse_overwrite_and_replay_witness :
    processVoucher sampleConfig sampleStore 1010 1010000 sampleVoucher
        "0xsig" acceptAllSigs
      = .accept (storeSet sampleStore "v1" ⟨sampleVoucher, "0xsig", 1010000⟩)
    ∧ ∃ s', reuseRun sampleConfig acceptAllSigs sampleVoucher "0xsig" 2 1020
          sampleStore = some s'
        ∧ ∃ st, storeGet s' "v1" = some st
            ∧ st.voucher.valueAggregate = 10000
            ∧ st.voucher.nonce = 0 := by
  have h := deferred_reuse_overwrite_and_replay sampleConfig sampleStore 1010
    1010000 sampleVoucher "0xsig" acceptAllSigs
    ⟨sampleVoucher, "0xsig", 1000000⟩ (by decide) (by decide) (by decide)
    (by decide) (by decide) (by decide) (by decide) (by decide)
    (fun _ => rfl)
  exact ⟨h.1.1, h.2 2 1020 sampleStore ⟨sampleVoucher, "0xsig", 1000000⟩
    (by decide) (by decide) (by decide) (by decide)⟩

/-- C4: after verification passed and the downstream handler completed with
status below 400, a failed settle call overwrites the response with a 402
carrying the settlement's error reason, and no `X-Receipt-Token` header is
issued: the downstream handler's captured output is discarded. -/
theorem exact_settle_failure_overwrites_response (downstreamStatus : Nat)
    (r : SettleResponse) (hok : downstreamStatus < 400)
    (hfail : r.success = false) :
    finalizeExact downstreamStatus (.returned r)
      = ⟨true, 402, false, true, .error402 r.errorReason⟩ := by
  unfold finalizeExact
  rw [if_neg (not_le.mpr hok)]
  simp [hfail]

/-- C4 witness: downstream status 200 with a failed settlement yields the
402 settlement-error response without a receipt token. -/
theorem exact_settle_failure_overwrites_response_witness :
    finalizeExact 200 (.returned ⟨false, "insufficient_funds"⟩)
      = ⟨true, 402, false, true, .error402 "insufficient_funds"⟩ :=
  exact_settle_failure_overwrites_response 200 ⟨false, "insufficient_funds"⟩
    (by decide) (by decide)

/-- C5: when the downstream handler produced a status ≥ 400, the external
settle function is never called, no bearer token is issued, and the captured
downstream error response is transmitted unmodified. -/
theorem exact_downstream_error_skips_settlement (downstreamStatus : Nat)
    (settle : SettleOutcome) (herr : 400 ≤ downstreamStatus) :
    finalizeExact downstreamStatus settle
      = ⟨false, downstreamStatus, false, false, .downstream⟩ := by
  unfold finalizeExact
  rw [if_pos herr]

/-- C5 witness: a downstream 404 skips settlement regardless of what the
settle call would have returned. -/
theorem exact_downstream_error_skips_settlement_witness :
    finalizeExact 404 (.returned ⟨true, ""⟩)
      = ⟨false, 404, false, false, .downstream⟩ :=
  exact_downstream_error_skips_settlement 404 (.returned ⟨true, ""⟩)
    (by decide)

/-- C8: a verified bearer token whose scope glob patterns (each `*` matching
any characters, anchored at both ends) match the request's fully-qualified
URL allows the request unconditionally, with no further payment check; the
pattern `https://host/stream/abc*` matches both the manifest
`https://host/stream/abc.m3u8` and the nested segment
`https://host/stream/abc/seg0.ts`, but not the sibling stream `xyz`. -/
theorem exact_token_scope_glob :
    (∀ (receipt : PaymentReceipt) (currentUrl : String),
        hasMatchingScope receipt.scope currentUrl = true →
        exactTokenGate (some receipt) currentUrl = .allow)
    ∧ scopeMatches "https://host/stream/abc*" "https://host/stream/abc.m3u8"
        = true
    ∧ scopeMatches "https://host/stream/abc*" "https://host/stream/abc/seg0.ts"
        = true
    ∧ scopeMatches "https://host/stream/abc*" "https://host/stream/xyz.m3u8"
        = false
    ∧ scopeMatches "https://host/stream/abc*" "https://host/stream/xyz/seg0.ts"
        = false := by
  refine ⟨fun receipt currentUrl hmatch => ?_, by decide, by decide,
    by decide, by decide⟩
  simp only [exactTokenGate]
  rw [if_pos hmatch]

/-- C8 witness: a token scoped to `https://host/stream/abc*` allows the
request for the manifest URL with no payment check. -/
theorem exact_token_scope_glob_witness :
    exactTokenGate
        (some ⟨"https://host", "0xbeef", "req", 0,
          ["https://host/stream/abc*"]⟩)
        "https://host/stream/abc.m3u8" = .allow :=
  exact_token_scope_glob.1
    ⟨"https://host", "0xbeef", "req", 0, ["https://host/stream/abc*"]⟩
    "https://host/stream/abc.m3u8" (by decide)

/-- C10 counterexample: decoding the encoded payment of the sample voucher
with the empty signature string throws (`!parsed.signature` is true for the
empty string), so the round trip does not hold for every signature string. -/
theorem decode_encode_empty_signature_counterexample :
    decodePayment (encodePayment sampleVoucher "")
      = .error "Invalid deferred payment header" := rfl

/-- C10 (amended): for every deferred voucher and nonempty signature string,
decoding the encoded payment header succeeds and returns the voucher and
signature unchanged. -/
theorem decode_encode_roundtrip_nonempty_signature
    (voucher : DeferredVoucher) (signature : String) (hs : signature ≠ "") :
    decodePayment (encodePayment voucher signature)
      = .ok ⟨voucher, signature⟩ := by
  unfold decodePayment encodePayment
  rw [if_neg]
  simp [DEFERRED_SCHEME, hs]

/-- C10 witness: the concrete round trip on the sample voucher and the
signature `"0xsig"`. -/
theorem decode_encode_roundtrip_nonempty_signature_witness :
    decodePayment (encodePayment sampleVoucher "0xsig")
      = .ok ⟨sampleVoucher, "0xsig"⟩ :=
  decode_encode_roundtrip_nonempty_signature sampleVoucher "0xsig" (by decide)

end X402
